import Mathlib

/-!
# Verification of the whoisapi domain-intelligence engine (`src/main.py`)

A shallow embedding of the WHOIS/DNS resolution core of the repository:
the domain normalizer (`validate_domain`), the authority registry
(`WHOIS_SERVERS` / `RDAP_SERVERS` and `_get_whois_server`), the
four-tier WHOIS orchestrator (`_do_whois_query`), the RDAP client and
parser (`_query_rdap`, `_parse_rdap_response`), the DNS resolver
(`_do_dns_query`) and the aggregator (`full_lookup`).

Strings are modelled as `List Char` (Python `str` is a sequence of code
points).  Network effects (the raw WHOIS socket, the RDAP HTTP client,
the DNS resolver backend, the python-whois library call) are modelled
as explicit environment records supplying the responses the network
would return; everything derived from those responses is translated
from the Python source.
-/

namespace WhoisApi

/-! ## Python string primitives (ASCII model)

`pyLower`/`pyUpper` model Python `str.lower()`/`str.upper()` on the
ASCII range (non-ASCII case mappings are not modelled; every claim in
this development only exercises ASCII inputs, and the domain grammar in
`validate_domain` only accepts ASCII output).  `isPySpace` models the
ASCII part of Python `str.strip()`'s whitespace set. -/

def pyLower (c : Char) : Char :=
  if 65 ≤ c.toNat ∧ c.toNat ≤ 90 then Char.ofNat (c.toNat + 32) else c

def pyUpper (c : Char) : Char :=
  if 97 ≤ c.toNat ∧ c.toNat ≤ 122 then Char.ofNat (c.toNat - 32) else c

def isPySpace (c : Char) : Bool :=
  decide (c.toNat = 32) || decide (c.toNat = 9) || decide (c.toNat = 10) ||
  decide (c.toNat = 13) || decide (c.toNat = 11) || decide (c.toNat = 12)

/-- Python `s.strip()`: drop leading and trailing whitespace. -/
def pyStrip (cs : List Char) : List Char :=
  ((cs.dropWhile isPySpace).reverse.dropWhile isPySpace).reverse

/-- Python `s.split(sep)[0]` for a one-character separator: the prefix
of the string before the first occurrence of `sep`. -/
def takeUntil (sep : Char) (cs : List Char) : List Char :=
  cs.takeWhile (fun c => c != sep)

/-- Python `s.split(sep)` for a one-character separator. -/
def splitOnChar (sep : Char) : List Char → List (List Char)
  | [] => [[]]
  | c :: rest =>
    if c = sep then [] :: splitOnChar sep rest
    else
      match splitOnChar sep rest with
      | [] => [[c]]
      | p :: ps => (c :: p) :: ps

/-- Python `sep.flatten(parts)` for the one-character separator `'.'`. -/
def joinDots : List (List Char) → List Char
  | [] => []
  | [p] => p
  | p :: ps => p ++ '.' :: joinDots ps

/-- `leadsWith needle hay` holds when `needle` occurs at the very start
of `hay` (list prefix test, written out to keep the development
self-contained). -/
def leadsWith : List Char → List Char → Bool
  | [], _ => true
  | _ :: _, [] => false
  | a :: as, b :: bs => a == b && leadsWith as bs

/-- Python's substring operator `needle in hay`. -/
def containsSub (needle : List Char) : List Char → Bool
  | [] => leadsWith needle []
  | c :: rest => leadsWith needle (c :: rest) || containsSub needle rest

/-! ## Domain normalizer (`validate_domain`, `src/main.py:122-142`) -/

/-- `[a-z]` of the validation regex. -/
def isLowerAlpha (c : Char) : Bool :=
  decide (97 ≤ c.toNat) && decide (c.toNat ≤ 122)

/-- `[0-9]` of the validation regex. -/
def isDigitChar (c : Char) : Bool :=
  decide (48 ≤ c.toNat) && decide (c.toNat ≤ 57)

/-- `[a-z0-9]` of the validation regex. -/
def isAlnumChar (c : Char) : Bool := isLowerAlpha c || isDigitChar c

/-- `[a-z0-9-]` of the validation regex (45 is `'-'`). -/
def isLabelChar (c : Char) : Bool := isAlnumChar c || decide (c.toNat = 45)

/-- Characters that can appear in an accepted domain (label characters
plus the dot separator, 46 is `'.'`). -/
def isDomainChar (c : Char) : Bool := isLabelChar c || decide (c.toNat = 46)

/-- A non-final label: `[a-z0-9]([a-z0-9-]*[a-z0-9])?` — nonempty,
alphanumeric-and-hyphen, first and last character alphanumeric. -/
def validLabel (l : List Char) : Bool :=
  match l.head?, l.getLast? with
  | some h, some t => l.all isLabelChar && isAlnumChar h && isAlnumChar t
  | _, _ => false

/-- The final label: `[a-z]{2,}` — at least two lowercase letters. -/
def validFinalLabel (l : List Char) : Bool :=
  decide (2 ≤ l.length) && l.all isLowerAlpha

/-- The domain grammar of `validate_domain`'s regex
`^[a-z0-9]([a-z0-9-]*[a-z0-9])?(\.[a-z0-9]([a-z0-9-]*[a-z0-9])?)*\.[a-z]\x7b2,\x7d$`,
phrased over the (unique) dot-decomposition of the string: at least two
dot-separated parts, every part but the last a valid label, the last
part at least two lowercase letters.  Because neither `[a-z0-9-]` nor
`[a-z]` contains `'.'`, a match of the regex decomposes the string at
exactly its dots, so the two formulations agree. -/
def matchesCore (cs : List Char) : Bool :=
  let parts := splitOnChar '.' cs
  decide (2 ≤ parts.length) && parts.dropLast.all validLabel &&
    (match parts.getLast? with
     | some lb => validFinalLabel lb
     | none => false)

/-- Python `re.match` with a `$`-terminated pattern also succeeds when
the pattern matches everything before a single trailing newline (`$`
matches before a final `'\n'`).  `validate_domain` only applies the
regex to stripped strings, where the quirk cannot fire, but it is kept
for faithfulness. -/
def matchesDomainRegex (cs : List Char) : Bool :=
  matchesCore cs ||
    (match cs.getLast? with
     | some c => c == '\n' && matchesCore cs.dropLast
     | none => false)

/-- `re.sub(r'^https?://', '', domain)`: remove one leading lowercase
`http://` or `https://`.  The regex is case-sensitive (no
`re.IGNORECASE`), so uppercase spellings are not stripped. -/
def stripScheme (cs : List Char) : List Char :=
  if cs.take 8 = "https://".data then cs.drop 8
  else if cs.take 7 = "http://".data then cs.drop 7
  else cs

/-- `validate_domain` (`src/main.py:122-142`): strip a lowercase scheme
prefix, truncate at the first `'/'` and the first `':'`, lowercase,
strip whitespace; reject the empty string and anything failing the
domain regex (Python raises `ValueError`, modelled as `none`). -/
def validate_domain (cs : List Char) : Option (List Char) :=
  let d := pyStrip ((takeUntil ':' (takeUntil '/' (stripScheme cs))).map pyLower)
  if d.isEmpty then none
  else if matchesDomainRegex d then some d
  else none

/-! ## Authority Registry (`WHOIS_SERVERS`, `RDAP_SERVERS`,
`_get_whois_server`, `src/main.py:170-661, 778-790`)

The Python dicts are transcribed as association lists in source order.
Python dict construction keeps the *last* binding of a duplicated key,
while `List.find?` returns the *first*; the source dicts repeat only
the keys `travel`, `me`, `co`, `ly`, `mu` and `tv`, each time with an
identical value, so the two conventions agree. -/

def WHOIS_SERVERS : List (String × String) := [
  ("com", "whois.verisign-grs.com"),
  ("net", "whois.verisign-grs.com"),
  ("org", "whois.pir.org"),
  ("info", "whois.afilias.net"),
  ("biz", "whois.biz"),
  ("name", "whois.nic.name"),
  ("pro", "whois.afilias.net"),
  ("mobi", "whois.afilias.net"),
  ("asia", "whois.nic.asia"),
  ("tel", "whois.nic.tel"),
  ("jobs", "whois.nic.jobs"),
  ("travel", "whois.nic.travel"),
  ("xxx", "whois.nic.xxx"),
  ("cat", "whois.nic.cat"),
  ("coop", "whois.nic.coop"),
  ("aero", "whois.aero"),
  ("museum", "whois.nic.museum"),
  ("post", "whois.dotpostregistry.net"),
  ("xyz", "whois.nic.xyz"),
  ("top", "whois.nic.top"),
  ("site", "whois.nic.site"),
  ("online", "whois.nic.online"),
  ("tech", "whois.nic.tech"),
  ("cloud", "whois.nic.cloud"),
  ("host", "whois.nic.host"),
  ("website", "whois.nic.website"),
  ("space", "whois.nic.space"),
  ("link", "whois.uniregistry.net"),
  ("click", "whois.uniregistry.net"),
  ("digital", "whois.nic.digital"),
  ("network", "whois.nic.network"),
  ("systems", "whois.nic.systems"),
  ("software", "whois.nic.software"),
  ("computer", "whois.nic.computer"),
  ("codes", "whois.nic.codes"),
  ("domains", "whois.nic.domains"),
  ("hosting", "whois.nic.hosting"),
  ("data", "whois.nic.data"),
  ("shop", "whois.nic.shop"),
  ("store", "whois.nic.store"),
  ("club", "whois.nic.club"),
  ("vip", "whois.nic.vip"),
  ("win", "whois.nic.win"),
  ("wang", "whois.gtld.knet.cn"),
  ("work", "whois.nic.work"),
  ("company", "whois.nic.company"),
  ("business", "whois.nic.business"),
  ("agency", "whois.nic.agency"),
  ("group", "whois.nic.group"),
  ("center", "whois.nic.center"),
  ("solutions", "whois.nic.solutions"),
  ("services", "whois.nic.services"),
  ("consulting", "whois.nic.consulting"),
  ("management", "whois.nic.management"),
  ("partners", "whois.nic.partners"),
  ("ventures", "whois.nic.ventures"),
  ("capital", "whois.nic.capital"),
  ("holdings", "whois.nic.holdings"),
  ("global", "whois.nic.global"),
  ("international", "whois.nic.international"),
  ("limited", "whois.nic.limited"),
  ("ltd", "whois.nic.ltd"),
  ("inc", "whois.nic.inc"),
  ("gmbh", "whois.nic.gmbh"),
  ("llc", "whois.nic.llc"),
  ("sarl", "whois.nic.sarl"),
  ("finance", "whois.nic.finance"),
  ("financial", "whois.nic.financial"),
  ("money", "whois.nic.money"),
  ("fund", "whois.nic.fund"),
  ("investments", "whois.nic.investments"),
  ("exchange", "whois.nic.exchange"),
  ("market", "whois.nic.market"),
  ("trading", "whois.nic.trading"),
  ("cash", "whois.nic.cash"),
  ("bank", "whois.nic.bank"),
  ("insurance", "whois.nic.insurance"),
  ("credit", "whois.nic.credit"),
  ("loan", "whois.nic.loan"),
  ("loans", "whois.nic.loans"),
  ("tax", "whois.nic.tax"),
  ("blog", "whois.nic.blog"),
  ("news", "whois.nic.news"),
  ("media", "whois.nic.media"),
  ("live", "whois.nic.live"),
  ("video", "whois.nic.video"),
  ("tv", "whois.nic.tv"),
  ("fm", "whois.nic.fm"),
  ("photos", "whois.nic.photos"),
  ("pictures", "whois.nic.pictures"),
  ("gallery", "whois.nic.gallery"),
  ("graphics", "whois.nic.graphics"),
  ("design", "whois.nic.design"),
  ("art", "whois.nic.art"),
  ("studio", "whois.nic.studio"),
  ("music", "whois.nic.music"),
  ("audio", "whois.nic.audio"),
  ("games", "whois.nic.games"),
  ("game", "whois.nic.game"),
  ("play", "whois.nic.play"),
  ("chat", "whois.nic.chat"),
  ("social", "whois.nic.social"),
  ("community", "whois.nic.community"),
  ("fans", "whois.nic.fans"),
  ("fun", "whois.nic.fun"),
  ("lol", "whois.nic.lol"),
  ("life", "whois.nic.life"),
  ("world", "whois.nic.world"),
  ("today", "whois.nic.today"),
  ("city", "whois.nic.city"),
  ("zone", "whois.nic.zone"),
  ("place", "whois.nic.place"),
  ("email", "whois.nic.email"),
  ("support", "whois.nic.support"),
  ("help", "whois.nic.help"),
  ("guide", "whois.nic.guide"),
  ("tips", "whois.nic.tips"),
  ("wiki", "whois.nic.wiki"),
  ("plus", "whois.nic.plus"),
  ("express", "whois.nic.express"),
  ("direct", "whois.nic.direct"),
  ("delivery", "whois.nic.delivery"),
  ("academy", "whois.nic.academy"),
  ("education", "whois.nic.education"),
  ("school", "whois.nic.school"),
  ("college", "whois.nic.college"),
  ("university", "whois.nic.university"),
  ("institute", "whois.nic.institute"),
  ("training", "whois.nic.training"),
  ("courses", "whois.nic.courses"),
  ("legal", "whois.nic.legal"),
  ("lawyer", "whois.nic.lawyer"),
  ("attorney", "whois.nic.attorney"),
  ("law", "whois.nic.law"),
  ("doctor", "whois.nic.doctor"),
  ("dentist", "whois.nic.dentist"),
  ("clinic", "whois.nic.clinic"),
  ("healthcare", "whois.nic.healthcare"),
  ("hospital", "whois.nic.hospital"),
  ("pharmacy", "whois.nic.pharmacy"),
  ("fitness", "whois.nic.fitness"),
  ("yoga", "whois.nic.yoga"),
  ("property", "whois.nic.property"),
  ("properties", "whois.nic.properties"),
  ("realty", "whois.nic.realty"),
  ("estate", "whois.nic.estate"),
  ("land", "whois.nic.land"),
  ("house", "whois.nic.house"),
  ("homes", "whois.nic.homes"),
  ("apartments", "whois.nic.apartments"),
  ("restaurant", "whois.nic.restaurant"),
  ("bar", "whois.nic.bar"),
  ("pub", "whois.nic.pub"),
  ("cafe", "whois.nic.cafe"),
  ("coffee", "whois.nic.coffee"),
  ("pizza", "whois.nic.pizza"),
  ("beer", "whois.nic.beer"),
  ("wine", "whois.nic.wine"),
  ("kitchen", "whois.nic.kitchen"),
  ("recipes", "whois.nic.recipes"),
  ("travel", "whois.nic.travel"),
  ("flights", "whois.nic.flights"),
  ("holiday", "whois.nic.holiday"),
  ("vacation", "whois.nic.vacation"),
  ("cruises", "whois.nic.cruises"),
  ("tours", "whois.nic.tours"),
  ("wedding", "whois.nic.wedding"),
  ("party", "whois.nic.party"),
  ("events", "whois.nic.events"),
  ("tickets", "whois.nic.tickets"),
  ("dating", "whois.nic.dating"),
  ("sale", "whois.nic.sale"),
  ("deals", "whois.nic.deals"),
  ("discount", "whois.nic.discount"),
  ("coupons", "whois.nic.coupons"),
  ("bargains", "whois.nic.bargains"),
  ("cheap", "whois.nic.cheap"),
  ("best", "whois.nic.best"),
  ("bid", "whois.nic.bid"),
  ("auction", "whois.nic.auction"),
  ("io", "whois.nic.io"),
  ("co", "whois.nic.co"),
  ("me", "whois.nic.me"),
  ("cc", "ccwhois.verisign-grs.com"),
  ("ws", "whois.website.ws"),
  ("la", "whois.nic.la"),
  ("in", "whois.inregistry.net"),
  ("pw", "whois.nic.pw"),
  ("ai", "whois.nic.ai"),
  ("gg", "whois.gg"),
  ("im", "whois.nic.im"),
  ("to", "whois.tonic.to"),
  ("am", "whois.amnic.net"),
  ("ly", "whois.nic.ly"),
  ("so", "whois.nic.so"),
  ("sh", "whois.nic.sh"),
  ("ac", "whois.nic.ac"),
  ("sx", "whois.sx"),
  ("nu", "whois.iis.nu"),
  ("gl", "whois.nic.gl"),
  ("is", "whois.isnic.is"),
  ("mu", "whois.nic.mu"),
  ("sc", "whois.nic.sc"),
  ("vc", "whois.nic.vc"),
  ("ag", "whois.nic.ag"),
  ("bz", "whois.belizenic.bz"),
  ("ms", "whois.nic.ms"),
  ("tc", "whois.nic.tc"),
  ("vg", "whois.nic.vg"),
  ("gd", "whois.nic.gd"),
  ("dm", "whois.nic.dm"),
  ("lc", "whois.nic.lc"),
  ("ht", "whois.nic.ht"),
  ("cn", "whois.cnnic.cn"),
  ("uk", "whois.nic.uk"),
  ("de", "whois.denic.de"),
  ("eu", "whois.eu"),
  ("fr", "whois.nic.fr"),
  ("nl", "whois.domain-registry.nl"),
  ("be", "whois.dns.be"),
  ("it", "whois.nic.it"),
  ("es", "whois.nic.es"),
  ("pl", "whois.dns.pl"),
  ("ru", "whois.tcinet.ru"),
  ("ua", "whois.ua"),
  ("at", "whois.nic.at"),
  ("ch", "whois.nic.ch"),
  ("li", "whois.nic.li"),
  ("cz", "whois.nic.cz"),
  ("sk", "whois.sk-nic.sk"),
  ("hu", "whois.nic.hu"),
  ("dk", "whois.dk-hostmaster.dk"),
  ("fi", "whois.fi"),
  ("se", "whois.iis.se"),
  ("no", "whois.norid.no"),
  ("ie", "whois.iedr.ie"),
  ("pt", "whois.dns.pt"),
  ("gr", "whois.ics.forth.gr"),
  ("ro", "whois.rotld.ro"),
  ("bg", "whois.register.bg"),
  ("hr", "whois.dns.hr"),
  ("rs", "whois.rnids.rs"),
  ("si", "whois.register.si"),
  ("lt", "whois.domreg.lt"),
  ("lv", "whois.nic.lv"),
  ("ee", "whois.tld.ee"),
  ("by", "whois.cctld.by"),
  ("md", "whois.nic.md"),
  ("lu", "whois.dns.lu"),
  ("mc", "whois.nic.mc"),
  ("mt", "whois.nic.mt"),
  ("cy", "whois.nic.cy"),
  ("al", "whois.akep.al"),
  ("mk", "whois.marnet.mk"),
  ("ba", "whois.nic.ba"),
  ("me", "whois.nic.me"),
  ("xn--p1ai", "whois.tcinet.ru"),
  ("jp", "whois.jprs.jp"),
  ("kr", "whois.kr"),
  ("tw", "whois.twnic.net.tw"),
  ("hk", "whois.hkirc.hk"),
  ("sg", "whois.sgnic.sg"),
  ("my", "whois.mynic.my"),
  ("id", "whois.pandi.or.id"),
  ("ph", "whois.dot.ph"),
  ("vn", "whois.vnnic.vn"),
  ("th", "whois.thnic.co.th"),
  ("ir", "whois.nic.ir"),
  ("pk", "whois.pknic.net.pk"),
  ("bd", "whois.btcl.net.bd"),
  ("np", "whois.mos.com.np"),
  ("lk", "whois.nic.lk"),
  ("mm", "whois.nic.mm"),
  ("kh", "whois.nic.kh"),
  ("mn", "whois.nic.mn"),
  ("kz", "whois.nic.kz"),
  ("uz", "whois.cctld.uz"),
  ("af", "whois.nic.af"),
  ("bt", "whois.nic.bt"),
  ("ae", "whois.aeda.net.ae"),
  ("sa", "whois.nic.net.sa"),
  ("il", "whois.isoc.org.il"),
  ("tr", "whois.nic.tr"),
  ("qa", "whois.registry.qa"),
  ("kw", "whois.nic.kw"),
  ("bh", "whois.nic.bh"),
  ("om", "whois.registry.om"),
  ("jo", "whois.nic.jo"),
  ("lb", "whois.lbdr.org.lb"),
  ("iq", "whois.cmc.iq"),
  ("ps", "whois.pnina.ps"),
  ("ca", "whois.cira.ca"),
  ("mx", "whois.mx"),
  ("br", "whois.registro.br"),
  ("ar", "whois.nic.ar"),
  ("cl", "whois.nic.cl"),
  ("co", "whois.nic.co"),
  ("ve", "whois.nic.ve"),
  ("pe", "whois.nic.pe"),
  ("ec", "whois.nic.ec"),
  ("bo", "whois.nic.bo"),
  ("py", "whois.nic.py"),
  ("uy", "whois.nic.org.uy"),
  ("cr", "whois.nic.cr"),
  ("pa", "whois.nic.pa"),
  ("gt", "whois.gt"),
  ("hn", "whois.nic.hn"),
  ("sv", "whois.svnet.org.sv"),
  ("ni", "whois.nic.ni"),
  ("do", "whois.nic.do"),
  ("pr", "whois.nic.pr"),
  ("jm", "whois.nic.jm"),
  ("tt", "whois.nic.tt"),
  ("cu", "whois.nic.cu"),
  ("ky", "whois.nic.ky"),
  ("bb", "whois.nic.bb"),
  ("bs", "whois.nic.bs"),
  ("au", "whois.auda.org.au"),
  ("nz", "whois.srs.net.nz"),
  ("fj", "whois.nic.fj"),
  ("pg", "whois.nic.pg"),
  ("vu", "whois.nic.vu"),
  ("sb", "whois.nic.sb"),
  ("ck", "whois.nic.ck"),
  ("pf", "whois.nic.pf"),
  ("nc", "whois.nic.nc"),
  ("wf", "whois.nic.wf"),
  ("as", "whois.nic.as"),
  ("gu", "whois.nic.gu"),
  ("ki", "whois.nic.ki"),
  ("nr", "whois.nic.nr"),
  ("tv", "whois.nic.tv"),
  ("za", "whois.registry.net.za"),
  ("ci", "whois.nic.ci"),
  ("ng", "whois.nic.net.ng"),
  ("ke", "whois.kenic.or.ke"),
  ("gh", "whois.nic.gh"),
  ("tz", "whois.tznic.or.tz"),
  ("ug", "whois.co.ug"),
  ("ma", "whois.registre.ma"),
  ("eg", "whois.ripe.net"),
  ("tn", "whois.ati.tn"),
  ("dz", "whois.nic.dz"),
  ("ly", "whois.nic.ly"),
  ("sd", "whois.nic.sd"),
  ("et", "whois.nic.et"),
  ("rw", "whois.nic.rw"),
  ("zm", "whois.nic.zm"),
  ("zw", "whois.nic.zw"),
  ("bw", "whois.nic.bw"),
  ("na", "whois.na-nic.com.na"),
  ("mz", "whois.nic.mz"),
  ("ao", "whois.nic.ao"),
  ("cm", "whois.nic.cm"),
  ("sn", "whois.nic.sn"),
  ("ml", "whois.nic.ml"),
  ("bf", "whois.nic.bf"),
  ("ne", "whois.nic.ne"),
  ("cd", "whois.nic.cd"),
  ("cg", "whois.nic.cg"),
  ("ga", "whois.nic.ga"),
  ("gn", "whois.nic.gn"),
  ("re", "whois.nic.re"),
  ("mu", "whois.nic.mu"),
  ("mg", "whois.nic.mg"),
  ("cv", "whois.nic.cv"),
  ("co.uk", "whois.nic.uk"),
  ("org.uk", "whois.nic.uk"),
  ("me.uk", "whois.nic.uk"),
  ("ltd.uk", "whois.nic.uk"),
  ("plc.uk", "whois.nic.uk"),
  ("com.cn", "whois.cnnic.cn"),
  ("net.cn", "whois.cnnic.cn"),
  ("org.cn", "whois.cnnic.cn"),
  ("gov.cn", "whois.cnnic.cn"),
  ("com.au", "whois.auda.org.au"),
  ("net.au", "whois.auda.org.au"),
  ("org.au", "whois.auda.org.au"),
  ("co.nz", "whois.srs.net.nz"),
  ("net.nz", "whois.srs.net.nz"),
  ("org.nz", "whois.srs.net.nz"),
  ("co.jp", "whois.jprs.jp"),
  ("ne.jp", "whois.jprs.jp"),
  ("or.jp", "whois.jprs.jp"),
  ("co.kr", "whois.kr"),
  ("or.kr", "whois.kr"),
  ("com.br", "whois.registro.br"),
  ("net.br", "whois.registro.br"),
  ("org.br", "whois.registro.br"),
  ("com.mx", "whois.mx"),
  ("org.mx", "whois.mx"),
  ("com.tw", "whois.twnic.net.tw"),
  ("org.tw", "whois.twnic.net.tw"),
  ("com.hk", "whois.hkirc.hk"),
  ("org.hk", "whois.hkirc.hk"),
  ("com.sg", "whois.sgnic.sg"),
  ("org.sg", "whois.sgnic.sg"),
  ("co.za", "whois.registry.net.za"),
  ("org.za", "whois.registry.net.za"),
  ("net.za", "whois.registry.net.za"),
  ("com.ar", "whois.nic.ar"),
  ("org.ar", "whois.nic.ar"),
  ("in.th", "whois.thnic.co.th"),
  ("co.th", "whois.thnic.co.th"),
  ("com.my", "whois.mynic.my"),
  ("net.my", "whois.mynic.my"),
  ("org.my", "whois.mynic.my"),
  ("co.id", "whois.pandi.or.id"),
  ("web.id", "whois.pandi.or.id"),
  ("com.ph", "whois.dot.ph"),
  ("org.ph", "whois.dot.ph"),
  ("com.vn", "whois.vnnic.vn"),
  ("net.vn", "whois.vnnic.vn"),
  ("gov", "whois.dotgov.gov"),
  ("edu", "whois.educause.edu"),
  ("mil", "whois.nic.mil"),
  ("int", "whois.iana.org"),
  ("arpa", "whois.iana.org")]

/-- `RDAP_SERVERS` (`src/main.py:632-661`). -/
def RDAP_SERVERS : List (String × String) := [
  ("dev", "https://rdap.nic.google/domain/"),
  ("app", "https://rdap.nic.google/domain/"),
  ("page", "https://rdap.nic.google/domain/"),
  ("how", "https://rdap.nic.google/domain/"),
  ("soy", "https://rdap.nic.google/domain/"),
  ("new", "https://rdap.nic.google/domain/"),
  ("day", "https://rdap.nic.google/domain/"),
  ("foo", "https://rdap.nic.google/domain/"),
  ("software", "https://rdap.donuts.co/rdap/domain/"),
  ("engineer", "https://rdap.donuts.co/rdap/domain/"),
  ("digital", "https://rdap.donuts.co/rdap/domain/"),
  ("cloud", "https://rdap.donuts.co/rdap/domain/"),
  ("agency", "https://rdap.donuts.co/rdap/domain/"),
  ("com", "https://rdap.verisign.com/com/v1/domain/"),
  ("net", "https://rdap.verisign.com/net/v1/domain/"),
  ("org", "https://rdap.publicinterestregistry.org/rdap/domain/"),
  ("io", "https://rdap.nic.io/domain/"),
  ("co", "https://rdap.nic.co/domain/"),
  ("me", "https://rdap.nic.me/domain/"),
  ("xyz", "https://rdap.nic.xyz/domain/"),
  ("top", "https://rdap.nic.top/domain/"),
  ("info", "https://rdap.afilias.net/rdap/info/domain/"),
  ("biz", "https://rdap.nic.biz/domain/")]

/-- Membership test / `.get` on one of the transcribed dicts. -/
def tableLookup (table : List (String × String)) (key : List Char) :
    Option (List Char) :=
  (table.find? (fun p => p.1.data == key)).map (fun p => p.2.data)

/-- `_get_whois_server` (`src/main.py:778-790`): try the joined last
two labels as a second-level suffix, then fall back to the last label
(the TLD). -/
def _get_whois_server (domain : List Char) : Option (List Char) :=
  let parts := splitOnChar '.' domain
  let fromSecond :=
    if 2 ≤ parts.length then
      tableLookup WHOIS_SERVERS (joinDots (parts.drop (parts.length - 2)))
    else none
  match fromSecond with
  | some s => some s
  | none =>
    match parts.getLast? with
    | some tld => tableLookup WHOIS_SERVERS tld
    | none => none

/-! ## JSON values and Python truthiness

`Json` models the values `json.loads` can produce (numbers are
modelled as integers; no claim involves fractional JSON numbers).
`Json.null` doubles as Python `None`: `json.loads("null")` returns
`None`, and `_query_rdap` returns `None` on failure, so one value space
matches the Python code.  An object is the key-value list of an
already-parsed Python dict (keys unique, `json.loads` keeps the last
duplicate). -/

inductive Json where
  | null : Json
  | bool : Bool → Json
  | num : Int → Json
  | str : List Char → Json
  | arr : List Json → Json
  | obj : List (List Char × Json) → Json

/-- Python truthiness of a parsed-JSON value (`if data:` etc.). -/
def Json.pyTruthy : Json → Bool
  | .null => false
  | .bool b => b
  | .num n => n != 0
  | .str s => !s.isEmpty
  | .arr xs => !xs.isEmpty
  | .obj fs => !fs.isEmpty

/-- Python `value == "literal"` for a string literal on the right:
true exactly when the value is that string. -/
def Json.isStr (j : Json) (s : List Char) : Bool :=
  match j with
  | .str t => t == s
  | _ => false

/-- Python `d.get(key)` on a dict (`none` for a missing key; the
receivers in `_parse_rdap_response` are dicts on every path a claim
exercises — Python raises `AttributeError` on non-dict receivers). -/
def Json.get? (j : Json) (key : List Char) : Option Json :=
  match j with
  | .obj fs => (fs.find? (fun p => p.1 == key)).map (fun p => p.2)
  | _ => none

/-- Python `d.get(key, default)`. -/
def Json.getD (j : Json) (key : List Char) (dflt : Json) : Json :=
  (j.get? key).getD dflt

/-- Iterating a JSON value expected to be an array (`for x in xs:`).
Non-array values are modelled as the empty iteration; no claim
exercises a non-array here. -/
def Json.asList : Json → List Json
  | .arr xs => xs
  | _ => []

/-- Python `lst[i]` on a JSON array, used for vCard items
(`item[0]`/`item[3]`); out-of-range access raises in Python and is
modelled as `null` (well-formed vCard items are long enough). -/
def Json.idx (j : Json) (i : Nat) : Json :=
  match j with
  | .arr xs => xs.getD i Json.null
  | _ => Json.null

/-- Python `str(x)` on a parsed-JSON value, used only to render the
IANA registrar identifier into `f"Registrar ID: {...}"`.  Containers
are rendered in a simplified form (no claim depends on them). -/
def pyStr : Json → List Char
  | .null => "None".data
  | .bool true => "True".data
  | .bool false => "False".data
  | .num n => (toString n).data
  | .str s => s
  | .arr _ => "[...]".data
  | .obj _ => "\x7b...\x7d".data

/-- Python `if not x:` on a field that is `None` or a stored JSON
value. -/
def pyFalsyOpt : Option Json → Bool
  | none => true
  | some j => !j.pyTruthy

/-! ## RDAP client (`_query_rdap`, `src/main.py:664-700`) -/

/-- The ordered RDAP endpoint list for a domain: the TLD-specific base
if registered, then the generic bootstrap service. -/
def rdapUrls (domain : List Char) : List (List Char) :=
  let tld := ((splitOnChar '.' domain).getLast?.getD []).map pyLower
  (match tableLookup RDAP_SERVERS tld with
   | some u => [u]
   | none => []) ++ ["https://rdap.org/domain/".data]

/-- One HTTP GET of `_query_rdap`, supplied by the environment:
`some j` models a 200 response whose body parsed as the JSON value `j`
(`j` may be `null` for a literal `null` body); `none` models every
failure the code skips (404, other HTTP errors, decode or JSON parse
errors, timeouts). -/
def RdapHttp := List Char → Option Json

/-- The candidate loop of `_query_rdap`: return the first parsed body,
else Python `None` (`Json.null`). -/
def rdapLoop (http : RdapHttp) (domain : List Char) :
    List (List Char) → Json
  | [] => Json.null
  | base :: rest =>
    match http (base ++ domain) with
    | some j => j
    | none => rdapLoop http domain rest

/-- `_query_rdap` (`src/main.py:664-700`). -/
def _query_rdap (http : RdapHttp) (domain : List Char) : Json :=
  rdapLoop http domain (rdapUrls domain)

/-! ## RDAP parser (`_parse_rdap_response`, `src/main.py:703-775`)

The result record mirrors the Python result dict.  The `raw_text`
field (`json.dumps(data, indent=2)`) is kept as the JSON value itself
rather than a rendered string — no claim depends on the rendering. -/

structure RdapResult where
  domain : List Char
  registrar : Option Json
  registrant : Option Json
  creation_date : Option Json
  expiration_date : Option Json
  updated_date : Option Json
  name_servers : Option (List (List Char))
  status : Option Json
  emails : Option (List Json)
  raw : Json

/-- First vCard item whose `item[0]` is `"fn"`, yielding `item[3]`
(the registrar loop breaks on the first match). -/
def firstFn (items : List Json) : Option Json :=
  match items.find? (fun it => (it.idx 0).isStr "fn".data) with
  | some it => some (it.idx 3)
  | none => none

/-- The registrant vCard loop: every `fn` item overwrites the
registrant (no break), every `email` item appends to the email list. -/
def registrantItemStep (st : Option Json × List Json) (it : Json) :
    Option Json × List Json :=
  let st := if (it.idx 0).isStr "fn".data then (some (it.idx 3), st.2) else st
  if (it.idx 0).isStr "email".data then (st.1, st.2 ++ [it.idx 3]) else st

/-- The `publicIds` loop: every entry whose `type` is
`"IANA Registrar ID"` overwrites the registrar with a synthesized
`Registrar ID: <identifier>` string (no break, so the last one wins). -/
def publicIdsFold (init : Option Json) (pids : List Json) : Option Json :=
  pids.foldl
    (fun r pid =>
      if (pid.getD "type".data Json.null).isStr "IANA Registrar ID".data then
        some (Json.str ("Registrar ID: ".data ++
          pyStr (pid.getD "identifier".data Json.null)))
      else r)
    init

/-- Accumulator of the entity loop. -/
structure EntityAcc where
  registrar : Option Json
  registrant : Option Json
  emails : List Json

/-- One iteration of the entity loop of `_parse_rdap_response`
(`src/main.py:720-743`). -/
def rdapEntityStep (acc : EntityAcc) (ent : Json) : EntityAcc :=
  let roles := (ent.getD "roles".data (Json.arr [])).asList
  let acc :=
    if roles.any (fun r => r.isStr "registrar".data) then
      let vcard := (ent.getD "vcardArray".data (Json.arr [])).asList
      let acc1 :=
        if 1 < vcard.length then
          match firstFn (vcard.getD 1 Json.null).asList with
          | some v => { acc with registrar := some v }
          | none => acc
        else acc
      if pyFalsyOpt acc1.registrar then
        { acc1 with
          registrar := publicIdsFold acc1.registrar
            (ent.getD "publicIds".data (Json.arr [])).asList }
      else acc1
    else acc
  if roles.any (fun r => r.isStr "registrant".data) then
    let vcard := (ent.getD "vcardArray".data (Json.arr [])).asList
    if 1 < vcard.length then
      let rs := (vcard.getD 1 Json.null).asList.foldl registrantItemStep
        (acc.registrant, acc.emails)
      { acc with registrant := rs.1, emails := rs.2 }
    else acc
  else acc

/-- Accumulated dates of the events loop. -/
structure RdapDates where
  creation : Option Json
  expiration : Option Json
  updated : Option Json

/-- One iteration of the events loop (`src/main.py:746-756`):
`registration` and `expiration` events assign their field
unconditionally; a `last changed` / `last update of RDAP database`
event assigns `updated` only when the field is still falsy
(`if not result['updated_date']`). -/
def rdapEventStep (st : RdapDates) (ev : Json) : RdapDates :=
  let action := ev.getD "eventAction".data Json.null
  let date := ev.getD "eventDate".data (Json.str [])
  if action.isStr "registration".data then
    { st with creation := some date }
  else if action.isStr "expiration".data then
    { st with expiration := some date }
  else if action.isStr "last changed".data ||
          action.isStr "last update of RDAP database".data then
    if pyFalsyOpt st.updated then { st with updated := some date } else st
  else st

/-- The events loop of `_parse_rdap_response`. -/
def parseRdapDates (events : List Json) : RdapDates :=
  events.foldl rdapEventStep ⟨none, none, none⟩

/-- The nameserver loop (`src/main.py:759-763`): collect each truthy
`ldhName`, lowercased. -/
def rdapNameServers (nss : List Json) : List (List Char) :=
  nss.foldl
    (fun acc ns =>
      match ns.getD "ldhName".data (Json.str []) with
      | Json.str s => if !s.isEmpty then acc ++ [s.map pyLower] else acc
      | _ => acc)
    []

/-- `_parse_rdap_response` (`src/main.py:703-775`). -/
def _parse_rdap_response (data : Json) (domain : List Char) : RdapResult :=
  let entities := (data.getD "entities".data (Json.arr [])).asList
  let eacc := entities.foldl rdapEntityStep ⟨none, none, []⟩
  let events := (data.getD "events".data (Json.arr [])).asList
  let dates := parseRdapDates events
  let nss := rdapNameServers (data.getD "nameservers".data (Json.arr [])).asList
  let status := data.getD "status".data (Json.arr [])
  { domain := domain
    registrar := eacc.registrar
    registrant := eacc.registrant
    creation_date := dates.creation
    expiration_date := dates.expiration
    updated_date := dates.updated
    name_servers := if nss.isEmpty then none else some nss
    status := if status.pyTruthy then some status else none
    emails := if eacc.emails.isEmpty then none else some eacc.emails
    raw := data }

/-! ## Legacy WHOIS client byte decoding
(`_query_whois_socket`, `src/main.py:793-827`)

Bytes are modelled as natural numbers below 256.  The UTF-8 and GBK
codecs are Python-runtime components, so the decode chain is
parameterized over them (`some` = successful decode to a code-point
sequence, `none` = `UnicodeDecodeError`); the Latin-1 / ISO-8859-1
codec is total by definition — each byte maps to the code point of the
same value — and is modelled concretely. -/

def latin1Decode (bs : List Nat) : Option (List Nat) :=
  if bs.all (fun b => b < 256) then some bs else none

/-- The decoders the Python runtime supplies to the fallback chain. -/
structure DecodeEnv where
  utf8Decode : List Nat → Option (List Nat)
  gbkDecode : List Nat → Option (List Nat)
  utf8DecodeIgnore : List Nat → List Nat

/-- Which entry of the fallback chain produced the returned text. -/
inductive EncodingUsed where
  | utf8 : EncodingUsed
  | latin1 : EncodingUsed
  | iso88591 : EncodingUsed
  | gbk : EncodingUsed
  | ignoreFallback : EncodingUsed
deriving DecidableEq

/-- The decode loop of `_query_whois_socket` (`src/main.py:817-824`):
try `utf-8`, `latin-1`, `iso-8859-1` (the same codec as `latin-1`),
`gbk` in order, and fall back to `utf-8` with `errors='ignore'`. -/
def decodeResponse (env : DecodeEnv) (bs : List Nat) :
    EncodingUsed × List Nat :=
  match env.utf8Decode bs with
  | some cps => (.utf8, cps)
  | none =>
    match latin1Decode bs with
    | some cps => (.latin1, cps)
    | none =>
      match latin1Decode bs with
      | some cps => (.iso88591, cps)
      | none =>
        match env.gbkDecode bs with
        | some cps => (.gbk, cps)
        | none => (.ignoreFallback, env.utf8DecodeIgnore bs)

/-! ## WHOIS orchestrator (`_do_whois_query`, `src/main.py:951-1056`) -/

/-- `not_found_indicators` of tier 2 (`src/main.py:986-987`). -/
def notFoundIndicators2 : List String :=
  ["no match", "not found", "no data found", "no entries found",
   "domain not found", "no information", "status: free"]

/-- `not_found_indicators` of tier 3 (`src/main.py:1019`): a shorter
list than tier 2's. -/
def notFoundIndicators3 : List String :=
  ["no match", "not found", "no data found", "no entries found"]

/-- `any(indicator in raw_text.lower() for indicator in indicators)`. -/
def isNotFound (inds : List String) (raw : List Char) : Bool :=
  inds.any (fun i => containsSub i.data (raw.map pyLower))

/-- `re.search(r'whois:\s*(\S+)', iana_raw, re.IGNORECASE)`: scan for
the leftmost case-insensitive `whois:` that is followed, after
optional whitespace, by at least one non-whitespace character; capture
the maximal non-whitespace run (`\S+`, to which the source's
`.strip()` is a no-op). -/
def findWhoisReferral : List Char → Option (List Char)
  | [] => none
  | c :: t =>
    if leadsWith "whois:".data ((c :: t).map pyLower) then
      let rest := ((c :: t).drop 6).dropWhile isPySpace
      if rest.isEmpty then findWhoisReferral t
      else some (rest.takeWhile (fun ch => !isPySpace ch))
    else findWhoisReferral t

/-- The structured result of the python-whois library call of tier 1
(`whois.whois(domain)`).  Only the `domain_name` attribute decides
acceptance; the record fields copied into the response are not
inspected by any claim and are elided. -/
structure LibWhoisRecord where
  domain_name : Option (List Char)

/-- The network-facing collaborators of `_do_whois_query`:
`lib` is the python-whois call (`none` = the call raised), `socket` is
`_query_whois_socket` keyed by (query line, server) (`none` = any
connection/timeout failure), `http` backs `_query_rdap`. -/
structure WhoisEnv where
  lib : Option LibWhoisRecord
  socket : List Char → List Char → Option (List Char)
  http : RdapHttp

/-- Tier 1 (`src/main.py:956-977`): the library result is accepted iff
`w.domain_name is not None`; any exception falls through. -/
def tier1Result (env : WhoisEnv) : Option LibWhoisRecord :=
  match env.lib with
  | none => none
  | some w => if w.domain_name.isSome then some w else none

/-- Tier 2 (`src/main.py:979-1005`): resolve the legacy server from the
registry, query it, accept iff the raw text is truthy, longer than 100
characters, and free of the tier-2 not-found indicators.  The accepted
payload is the raw text (the `WhoisResponse` assembled from
`_parse_whois_raw` carries fields no claim inspects). -/
def tier2Result (env : WhoisEnv) (domain : List Char) : Option (List Char) :=
  match _get_whois_server domain with
  | none => none
  | some server =>
    match env.socket domain server with
    | none => none
    | some raw =>
      if !raw.isEmpty && decide (100 < raw.length) then
        if isNotFound notFoundIndicators2 raw then none else some raw
      else none

/-- Tier 3 (`src/main.py:1007-1036`): query `whois.iana.org` for the
bare TLD, extract a `whois:` referral, and — when it is truthy and
differs from the tier-2 server — query it with tier-3 accept criteria. -/
def tier3Result (env : WhoisEnv) (domain : List Char)
    (whois_server : Option (List Char)) : Option (List Char) :=
  let tld := (splitOnChar '.' domain).getLast?.getD []
  match env.socket tld "whois.iana.org".data with
  | none => none
  | some iana_raw =>
    if iana_raw.isEmpty then none
    else
      match findWhoisReferral iana_raw with
      | none => none
      | some real_server =>
        let differs : Bool :=
          match whois_server with
          | some s => real_server != s
          | none => true
        if !real_server.isEmpty && differs then
          match env.socket domain real_server with
          | none => none
          | some raw =>
            if !raw.isEmpty && decide (100 < raw.length) then
              if isNotFound notFoundIndicators3 raw then none else some raw
            else none
        else none

/-- Tier 4 (`src/main.py:1038-1054`): run the RDAP client; accept iff
the returned value is truthy (`if rdap_data:`), i.e. a falsy body such
as the empty JSON object `\x7b\x7d` is not accepted. -/
def tier4Result (env : WhoisEnv) (domain : List Char) : Option RdapResult :=
  let rdap_data := _query_rdap env.http domain
  if rdap_data.pyTruthy then some (_parse_rdap_response rdap_data domain)
  else none

/-- The successful payload of `_do_whois_query`, tagged by the tier
that produced it. -/
inductive WhoisData where
  | fromLibrary : LibWhoisRecord → WhoisData
  | fromSocket : List Char → WhoisData
  | fromRdap : RdapResult → WhoisData

/-- The failure message of `_do_whois_query` (`src/main.py:1056`). -/
def whoisFailMsg (domain : List Char) : List Char :=
  "无法获取域名 ".data ++ domain ++
    " 的 WHOIS 信息（该域名后缀可能不支持公开 WHOIS 查询）".data

/-- The outcome of `_do_whois_query`, isomorphic to the Python tuple
`(success, data, error)` whose shapes are `(True, data, None)` and
`(False, None, msg)`. -/
inductive WhoisQueryOutcome where
  | success : WhoisData → WhoisQueryOutcome
  | failure : List Char → WhoisQueryOutcome

/-- `_do_whois_query` (`src/main.py:951-1056`): the four tiers in
order, first accepted result wins, else the failure message. -/
def _do_whois_query (env : WhoisEnv) (domain : List Char) :
    WhoisQueryOutcome :=
  match tier1Result env with
  | some w => .success (.fromLibrary w)
  | none =>
    match tier2Result env domain with
    | some raw => .success (.fromSocket raw)
    | none =>
      match tier3Result env domain (_get_whois_server domain) with
      | some raw => .success (.fromSocket raw)
      | none =>
        match tier4Result env domain with
        | some p => .success (.fromRdap p)
        | none => .failure (whoisFailMsg domain)

/-- The Python return tuple `(成功标志, 数据, 错误信息)`. -/
def whoisTuple (o : WhoisQueryOutcome) :
    Bool × Option WhoisData × Option (List Char) :=
  match o with
  | .success w => (true, some w, none)
  | .failure m => (false, none, some m)

/-! ## DNS resolver (`_do_dns_query`, `src/main.py:1115-1186`) -/

/-- `DNS_RECORD_TYPES` (`src/main.py:1115`). -/
def DNS_RECORD_TYPES : List String :=
  ["A", "AAAA", "CNAME", "MX", "NS", "TXT", "SOA", "PTR", "SRV", "CAA"]

/-- One rdata object returned by the dnspython resolver.  The code
accesses `str(rdata)` plus the duck-typed per-type attributes
(`preference`/`exchange` for MX, `mname`/`rname`/`serial` for SOA,
`priority`/`weight`/`port`/`target` for SRV); the resolver only hands
back objects of the queried type, so carrying all attributes in one
structure is faithful. -/
structure Rdata where
  str : List Char
  preference : Nat
  exchange : List Char
  mname : List Char
  rname : List Char
  serial : Nat
  priority : Nat
  weight : Nat
  port : Nat
  target : List Char
deriving DecidableEq

/-- A convenient rdata whose only populated attribute is its string
rendering (used for record types with no special formatting). -/
def mkRdata (s : List Char) : Rdata :=
  { str := s, preference := 0, exchange := [], mname := [], rname := [],
    serial := 0, priority := 0, weight := 0, port := 0, target := [] }

/-- Per-type value formatting (`src/main.py:1141-1156`). -/
def formatRecordValue (rtype : List Char) (r : Rdata) : List Char :=
  if rtype == "MX".data then
    (toString r.preference).data ++ " ".data ++ r.exchange
  else if rtype == "SOA".data then
    "主NS: ".data ++ r.mname ++ ", 管理邮箱: ".data ++ r.rname ++
      ", 序列号: ".data ++ (toString r.serial).data
  else if rtype == "SRV".data then
    (toString r.priority).data ++ " ".data ++ (toString r.weight).data ++
      " ".data ++ (toString r.port).data ++ " ".data ++ r.target
  else r.str

/-- Outcome of `resolver.resolve(domain, record_type)` for one type:
an answer set with its TTL, or one of the exceptions the loop
distinguishes (`NoAnswer`, `NXDOMAIN`, `NoNameservers`, anything
else). -/
inductive DnsOutcome where
  | answers : Nat → List Rdata → DnsOutcome
  | noAnswer : DnsOutcome
  | nxdomain : DnsOutcome
  | noNameservers : DnsOutcome
  | otherError : DnsOutcome
deriving DecidableEq

/-- The resolver backend, keyed by (domain, record type). -/
structure DnsEnv where
  resolve : List Char → List Char → DnsOutcome

/-- One entry of the response's `records` list. -/
structure DNSRecord where
  rtype : List Char
  name : List Char
  value : List Char
  ttl : Nat
deriving DecidableEq

/-- The records contributed by one record type (empty when the type
was skipped). -/
def recordsForType (env : DnsEnv) (d t : List Char) : List DNSRecord :=
  match env.resolve d t with
  | .answers ttl rds =>
    rds.map (fun r => ⟨t, d, formatRecordValue t r, ttl⟩)
  | _ => []

/-- The per-type loop (`src/main.py:1138-1171`): `NoAnswer`,
`NoNameservers` and other per-type errors skip to the next type;
`NXDOMAIN` aborts the whole call (`none`), discarding earlier
records. -/
def dnsLoop (env : DnsEnv) (d : List Char) :
    List (List Char) → Option (List DNSRecord)
  | [] => some []
  | t :: rest =>
    match env.resolve d t with
    | .nxdomain => none
    | .answers ttl rds =>
      (dnsLoop env d rest).map
        (fun more => rds.map (fun r => ⟨t, d, formatRecordValue t r, ttl⟩) ++ more)
    | _ => dnsLoop env d rest

/-- Parsing of the caller's `record_types` parameter
(`src/main.py:1124-1131`): a falsy value selects the default list;
otherwise split on commas, strip and uppercase each entry, and fail on
the first entry not in `DNS_RECORD_TYPES` (HTTP 400). -/
def resolveTypes (rts : Option (List Char)) :
    Except (List Char) (List (List Char)) :=
  match rts with
  | none => .ok (DNS_RECORD_TYPES.map String.data)
  | some s =>
    if s.isEmpty then .ok (DNS_RECORD_TYPES.map String.data)
    else
      let ts := (splitOnChar ',' s).map (fun t => (pyStrip t).map pyUpper)
      match ts.find? (fun t => !(DNS_RECORD_TYPES.map String.data).contains t) with
      | some bad => .error bad
      | none => .ok ts

/-- Result of `_do_dns_query`: the assembled response, or one of the
HTTP errors it raises (`ValueError` → 400 invalid domain, unsupported
record type → 400, `NXDOMAIN` → 404). -/
inductive DnsQueryResult where
  | ok : List Char → List DNSRecord → DnsQueryResult
  | invalidDomain : DnsQueryResult
  | unsupportedType : List Char → DnsQueryResult
  | domainNotFound : List Char → DnsQueryResult
deriving DecidableEq

/-- `_do_dns_query` (`src/main.py:1118-1186`).  The `query_time`
timestamp of the response is not modelled. -/
def _do_dns_query (env : DnsEnv) (domain : List Char)
    (rts : Option (List Char)) : DnsQueryResult :=
  match validate_domain domain with
  | none => .invalidDomain
  | some d =>
    match resolveTypes rts with
    | .error bad => .unsupportedType bad
    | .ok types =>
      match dnsLoop env d types with
      | none => .domainNotFound d
      | some recs => .ok d recs

/-! ## Aggregator (`full_lookup`, `src/main.py:1278-1344`) -/

/-- The `whois` field of the combined response: either the WHOIS data
or the downgraded `\x7bdomain, error\x7d` payload. -/
inductive WhoisField where
  | data : WhoisData → WhoisField
  | errorPayload : List Char → List Char → WhoisField

/-- Outcome of `full_lookup`: overall success carrying both fields, or
one of the propagated HTTP errors. -/
inductive LookupOutcome where
  | success : WhoisField → List DNSRecord → LookupOutcome
  | invalidDomain : LookupOutcome
  | unsupportedType : List Char → LookupOutcome
  | domainNotFound : List Char → LookupOutcome

/-- `full_lookup` (`src/main.py:1278-1344`): validate once, run the
WHOIS orchestrator (failure tolerated and downgraded into the
response) and the DNS query (its `HTTPException`s propagate and fail
the whole call). -/
def full_lookup (wenv : WhoisEnv) (denv : DnsEnv) (domain : List Char) :
    LookupOutcome :=
  match validate_domain domain with
  | none => .invalidDomain
  | some d =>
    let wq := _do_whois_query wenv d
    match _do_dns_query denv d none with
    | .ok _ recs =>
      match wq with
      | .success w => .success (.data w) recs
      | .failure msg => .success (.errorPayload d msg) recs
    | .invalidDomain => .invalidDomain
    | .unsupportedType t => .unsupportedType t
    | .domainNotFound dd => .domainNotFound dd

/-! ## Spec-side characterizations

Definitions following the spec's words, used to compare the code's
behaviour against the specified behaviour in the amended claims. -/

/-- The `eventDate` (with Python default `''`) of every event whose
`eventAction` equals the given string, in array order. -/
def eventDatesFor (action : String) (events : List Json) : List Json :=
  events.filterMap
    (fun ev =>
      if (ev.getD "eventAction".data Json.null).isStr action.data then
        some (ev.getD "eventDate".data (Json.str []))
      else none)

/-- The dates of the events matching either updated-date action. -/
def updatedDatesFor (events : List Json) : List Json :=
  events.filterMap
    (fun ev =>
      let action := ev.getD "eventAction".data Json.null
      if action.isStr "last changed".data ||
         action.isStr "last update of RDAP database".data then
        some (ev.getD "eventDate".data (Json.str []))
      else none)

/-- The first truthy element of a list if any, else its last element:
the value `updated_date` ends at under the `if not result` guard. -/
def firstTruthyOrLast (ds : List Json) : Option Json :=
  match ds.find? Json.pyTruthy with
  | some d => some d
  | none => ds.getLast?

/-! ## Concrete environments and inputs

Closed inputs used to evaluate the embedded code at specific points
(counterexamples and witnesses). -/

/-- A 100-character response with no not-found indicator. -/
def rawC1 : List Char := List.replicate 100 'a'

/-- Environment for `rawC1`: the library call raises, the direct
legacy query returns `rawC1`, RDAP is unreachable. -/
def envC1 : WhoisEnv :=
  { lib := none
    socket := fun q s =>
      if q == "example.com".data && s == "whois.verisign-grs.com".data then
        some rawC1
      else none
    http := fun _ => none }

/-- A 102-character response containing `status: free` and no other
not-found indicator. -/
def rawC2 : List Char := "status: free".data ++ List.replicate 90 'x'

/-- Environment for `rawC2`: the IANA query returns a referral to a
server different from the registry's, and every other socket query
returns `rawC2`. -/
def envC2 : WhoisEnv :=
  { lib := none
    socket := fun _ s =>
      if s == "whois.iana.org".data then
        some "refer    whois: whois.other-server.test\n".data
      else some rawC2
    http := fun _ => none }

/-- Environment in which every RDAP endpoint answers HTTP 200 with the
empty JSON object and everything else fails. -/
def envC3 : WhoisEnv :=
  { lib := none
    socket := fun _ _ => none
    http := fun _ => some (Json.obj []) }

/-- Environment in which every RDAP endpoint answers HTTP 200 with a
nonempty JSON object and everything else fails. -/
def envC3W : WhoisEnv :=
  { lib := none
    socket := fun _ _ => none
    http := fun _ => some (Json.obj [("objectClassName".data, Json.str "domain".data)]) }

/-- An MX rdata with preference 10 and exchange `mail.example.com`. -/
def mxRdataC4 : Rdata :=
  { mkRdata "10 mail.example.com.".data with
    preference := 10, exchange := "mail.example.com".data }

/-- A resolver backend with one A answer (TTL 300) and one MX answer
(TTL 600); every other type has no answer. -/
def envC4 : DnsEnv :=
  { resolve := fun _ t =>
      if t == "A".data then .answers 300 [mkRdata "93.184.216.34".data]
      else if t == "MX".data then .answers 600 [mxRdataC4]
      else .noAnswer }

/-- A resolver backend with one A answer but NXDOMAIN on MX. -/
def envC5 : DnsEnv :=
  { resolve := fun _ t =>
      if t == "A".data then .answers 300 [mkRdata "93.184.216.34".data]
      else if t == "MX".data then .nxdomain
      else .noAnswer }

/-- A WHOIS environment in which every tier fails. -/
def envW6 : WhoisEnv :=
  { lib := none, socket := fun _ _ => none, http := fun _ => none }

/-- A resolver backend with one A answer and nothing else. -/
def envD6 : DnsEnv :=
  { resolve := fun _ t =>
      if t == "A".data then .answers 300 [mkRdata "93.184.216.34".data]
      else .noAnswer }

/-- Two `registration` events with distinct dates. -/
def eventsC7 : List Json :=
  [Json.obj [("eventAction".data, Json.str "registration".data),
             ("eventDate".data, Json.str "2000-01-01T00:00:00Z".data)],
   Json.obj [("eventAction".data, Json.str "registration".data),
             ("eventDate".data, Json.str "2024-06-30T00:00:00Z".data)]]

/-- A decoder assignment in which UTF-8 and GBK reject every input
(the worst case for the fallback chain). -/
def decodeEnvW : DecodeEnv :=
  { utf8Decode := fun _ => none
    gbkDecode := fun _ => none
    utf8DecodeIgnore := fun _ => [] }

end WhoisApi



namespace WhoisApi

/-! ## Helper lemmas -/

theorem leadsWith_iff (n h : List Char) :
    leadsWith n h = true ↔ ∃ t, h = n ++ t := by
  induction n generalizing h with
  | nil => simp [leadsWith]
  | cons a as ih =>
    cases h with
    | nil => simp [leadsWith]
    | cons b bs =>
      simp only [leadsWith, Bool.and_eq_true, beq_iff_eq, ih]
      constructor
      · rintro ⟨rfl, t, rfl⟩; exact ⟨t, rfl⟩
      · rintro ⟨t, ht⟩
        cases ht
        exact ⟨rfl, t, rfl⟩

theorem containsSub_iff (n h : List Char) :
    containsSub n h = true ↔ ∃ s t, h = s ++ n ++ t := by
  induction h with
  | nil =>
    simp only [containsSub, leadsWith_iff]
    constructor
    · rintro ⟨t, ht⟩
      exact ⟨[], t, ht⟩
    · rintro ⟨s, t, ht⟩
      cases s with
      | nil => exact ⟨t, ht⟩
      | cons a s' => simp at ht
  | cons c rest ih =>
    simp only [containsSub, Bool.or_eq_true, leadsWith_iff, ih]
    constructor
    · rintro (⟨t, ht⟩ | ⟨s, t, ht⟩)
      · exact ⟨[], t, by simp [ht]⟩
      · exact ⟨c :: s, t, by simp [ht]⟩
    · rintro ⟨s, t, ht⟩
      cases s with
      | nil => exact Or.inl ⟨t, by simpa using ht⟩
      | cons a s' =>
        rw [List.cons_append, List.cons_append] at ht
        cases ht
        exact Or.inr ⟨s', t, rfl⟩

/-- A substring of a substring is a substring: if `x ++ y` occurs in
`h`, so does `y`. -/
theorem containsSub_of_append (x y h : List Char)
    (hx : containsSub (x ++ y) h = true) : containsSub y h = true := by
  rw [containsSub_iff] at hx ⊢
  obtain ⟨s, t, rfl⟩ := hx
  exact ⟨s ++ x, t, by simp⟩

end WhoisApi

namespace WhoisApi

/-! ## C10 — legacy client byte decoding is total at or before
Latin-1 -/

/-- C10: For every byte string the socket phase hands over, the
decode chain of `_query_whois_socket` succeeds at the `utf-8` entry or
at the `latin-1` entry — Latin-1 decodes every byte sequence — so the
`gbk` attempt and the terminal `errors='ignore'` fallback are
unreachable and the client always returns text once the socket phase
completed.  This holds for every behaviour of the runtime's UTF-8 and
GBK codecs. -/
theorem decode_succeeds_at_or_before_latin1 (env : DecodeEnv)
    (bs : List Nat) (hbytes : bs.all (fun b => b < 256) = true) :
    (decodeResponse env bs).1 = EncodingUsed.utf8 ∨
      (decodeResponse env bs).1 = EncodingUsed.latin1 := by
  unfold decodeResponse
  cases hu : env.utf8Decode bs with
  | some cps => simp
  | none =>
    have hl : latin1Decode bs = some bs := by
      simp [latin1Decode, hbytes]
    simp [hl]

/-- Witness for C10: on the byte string `[0xFF]` (invalid UTF-8, so
the worst-case decoder assignment `decodeEnvW` rejects it), the chain
still succeeds at or before Latin-1. -/
theorem decode_succeeds_at_or_before_latin1_witness :
    ([255] : List Nat).all (fun b => b < 256) = true ∧
      ((decodeResponse decodeEnvW [255]).1 = EncodingUsed.utf8 ∨
        (decodeResponse decodeEnvW [255]).1 = EncodingUsed.latin1) :=
  ⟨by decide, decode_succeeds_at_or_before_latin1 decodeEnvW [255] (by decide)⟩

/-! ## C1 — tier-2 acceptance -/

/-- C1 counterexample: The claim says tier 2 accepts any raw
text of length at least 100 (in particular exactly 100) with no
not-found indicator when a legacy server is registered.  In `envC1`
the registry yields a server for `example.com` and the socket returns
the 100-character indicator-free text `rawC1`, yet tier 2 rejects:
the code requires `len(raw_text) > 100`, strictly. -/
theorem c1_tier2_boundary_counterexample :
    _get_whois_server "example.com".data = some "whois.verisign-grs.com".data ∧
    envC1.socket "example.com".data "whois.verisign-grs.com".data = some rawC1 ∧
    rawC1.length = 100 ∧
    isNotFound notFoundIndicators2 rawC1 = false ∧
    tier2Result envC1 "example.com".data = none := by
  refine ⟨by decide, by decide, by decide, by decide, by decide⟩

/-- C1 amended: Tier 2 produces an accepted result iff a legacy
server was found in the registry, the socket client returned a raw
text of length *strictly greater than* 100 characters, and the tier-2
not-found classification is negative. -/
theorem tier2_accepted_iff (env : WhoisEnv) (domain : List Char) :
    (tier2Result env domain).isSome = true ↔
      ∃ server raw,
        _get_whois_server domain = some server ∧
        env.socket domain server = some raw ∧
        100 < raw.length ∧
        isNotFound notFoundIndicators2 raw = false := by
  rcases hs : _get_whois_server domain with _ | server
  · simp [tier2Result, hs]
  rcases hr : env.socket domain server with _ | raw
  · simp [tier2Result, hs, hr]
  · by_cases hlen : 100 < raw.length
    · have hne : raw.isEmpty = false := by
        cases raw with
        | nil => simp at hlen
        | cons a l => rfl
      by_cases hnf : isNotFound notFoundIndicators2 raw = true
      · simp [tier2Result, hs, hr, hne, hlen, hnf]
      · rw [Bool.not_eq_true] at hnf
        simp [tier2Result, hs, hr, hne, hlen, hnf]
    · simp [tier2Result, hs, hr, hlen]

end WhoisApi

namespace WhoisApi

/-! ## C2 — tier-3 vs tier-2 not-found classification -/

/-- C2 counterexample: The claim says tier 3 computes the same
not-found classification as tier 2.  The 102-character text `rawC2`
contains `status: free`: tier 2 classifies it as not-found, tier 3
does not (its indicator list omits `domain not found`, `no
information` and `status: free`), and in `envC2` the very same text is
rejected by tier 2 but accepted by tier 3. -/
theorem c2_classification_counterexample :
    isNotFound notFoundIndicators2 rawC2 = true ∧
    isNotFound notFoundIndicators3 rawC2 = false ∧
    tier2Result envC2 "example.com".data = none ∧
    tier3Result envC2 "example.com".data
        (_get_whois_server "example.com".data) = some rawC2 := by
  refine ⟨by decide, by decide, by decide, by decide⟩

/-- C2 amended: Tier 3 checks only the four indicators
`no match`, `not found`, `no data found`, `no entries found`; the two
classifications agree on every text that contains neither
`no information` nor `status: free` (case-insensitively).  The fifth
tier-2 indicator `domain not found` contains `not found`, so it never
separates the two classifications. -/
theorem tier3_vs_tier2_classification (raw : List Char)
    (h6 : containsSub "no information".data (raw.map pyLower) = false)
    (h7 : containsSub "status: free".data (raw.map pyLower) = false) :
    isNotFound notFoundIndicators3 raw = isNotFound notFoundIndicators2 raw := by
  have habs : containsSub "domain not found".data (raw.map pyLower) = true →
      containsSub "not found".data (raw.map pyLower) = true := by
    intro h
    have hd : ("domain not found".data : List Char) =
        "domain ".data ++ "not found".data := by decide
    rw [hd] at h
    exact containsSub_of_append _ _ _ h
  simp only [isNotFound, notFoundIndicators2, notFoundIndicators3,
    List.any_cons, List.any_nil]
  by_cases h5 : containsSub "domain not found".data (raw.map pyLower) = true
  · have h2 := habs h5
    simp [h2]
  · rw [Bool.not_eq_true] at h5
    simp [h5, h6, h7]

/-- Witness for the amended C2 at the concrete text
`No match for domain`. -/
theorem tier3_vs_tier2_classification_witness :
    isNotFound notFoundIndicators3 "No match for domain".data =
      isNotFound notFoundIndicators2 "No match for domain".data :=
  tier3_vs_tier2_classification "No match for domain".data
    (by decide) (by decide)

/-! ## C3 — tier-4 (RDAP) acceptance -/

/-- C3 counterexample: The claim says tier 4 is accepted for
every well-formed JSON body retrieved with HTTP 200, including an
empty object.  In `envC3` every RDAP endpoint returns the empty
object: the RDAP client does retrieve it, yet the orchestrator falls
through tier 4 (`if rdap_data:` is false for the falsy `\x7b\x7d`) and
fails with the WhoisUnavailable message instead of returning a
record. -/
theorem c3_empty_body_counterexample :
    (∀ url, envC3.http url = some (Json.obj [])) ∧
    _query_rdap envC3.http "example.com".data = Json.obj [] ∧
    _do_whois_query envC3 "example.com".data =
      .failure (whoisFailMsg "example.com".data) :=
  ⟨fun _ => rfl, rfl, rfl⟩

/-- C3 amended: When tiers 1–3 fail, the orchestrator succeeds
iff the value `_query_rdap` returns is *truthy* — a nonempty JSON
object (or other truthy value); an empty object, empty array, empty
string, zero or `null` body is treated as no result and the
orchestrator fails with WhoisUnavailable. -/
theorem tier4_accepted_iff_truthy (env : WhoisEnv) (domain : List Char)
    (h1 : tier1Result env = none)
    (h2 : tier2Result env domain = none)
    (h3 : tier3Result env domain (_get_whois_server domain) = none) :
    (∃ w, _do_whois_query env domain = .success w) ↔
      (_query_rdap env.http domain).pyTruthy = true := by
  by_cases ht : (_query_rdap env.http domain).pyTruthy = true
  · simp [_do_whois_query, h1, h2, h3, tier4Result, ht]
  · rw [Bool.not_eq_true] at ht
    simp [_do_whois_query, h1, h2, h3, tier4Result, ht]

/-- Witness for the amended C3: with a nonempty RDAP body the
orchestrator succeeds. -/
theorem tier4_accepted_iff_truthy_witness :
    (∃ w, _do_whois_query envC3W "example.com".data = .success w) ↔
      (_query_rdap envC3W.http "example.com".data).pyTruthy = true :=
  tier4_accepted_iff_truthy envC3W "example.com".data rfl rfl rfl

end WhoisApi

namespace WhoisApi

/-! ## C4/C5 — DNS loop lemmas -/

/-- A successful DNS loop returns exactly the per-type record lists
concatenated in the order the type list gives. -/
theorem dnsLoop_eq_join (env : DnsEnv) (d : List Char) :
    ∀ (ts : List (List Char)) (recs : List DNSRecord),
      dnsLoop env d ts = some recs →
      recs = (ts.map (recordsForType env d)).flatten := by
  intro ts
  induction ts with
  | nil =>
    intro recs h
    simp [dnsLoop] at h
    simp [← h]
  | cons t rest ih =>
    intro recs h
    rw [dnsLoop] at h
    cases hres : env.resolve d t with
    | nxdomain => rw [hres] at h; cases h
    | answers ttl rds =>
      rw [hres] at h
      obtain ⟨more, hm, hrec⟩ := Option.map_eq_some'.mp h
      rw [← hrec, ih more hm]
      simp [recordsForType, hres]
    | noAnswer =>
      rw [hres] at h
      rw [ih recs h]
      simp [recordsForType, hres]
    | noNameservers =>
      rw [hres] at h
      rw [ih recs h]
      simp [recordsForType, hres]
    | otherError =>
      rw [hres] at h
      rw [ih recs h]
      simp [recordsForType, hres]

/-- The DNS loop aborts iff some queried type resolves to NXDOMAIN. -/
theorem dnsLoop_none_iff (env : DnsEnv) (d : List Char) :
    ∀ ts : List (List Char),
      dnsLoop env d ts = none ↔ ∃ t ∈ ts, env.resolve d t = .nxdomain := by
  intro ts
  induction ts with
  | nil => simp [dnsLoop]
  | cons t rest ih =>
    rw [dnsLoop]
    cases hres : env.resolve d t with
    | nxdomain =>
      simp only [Option.map_eq_none']
      constructor
      · intro _; exact ⟨t, List.mem_cons_self t rest, hres⟩
      · intro _; trivial
    | answers ttl rds => simp [hres, ih]
    | noAnswer => simp [hres, ih]
    | noNameservers => simp [hres, ih]
    | otherError => simp [hres, ih]

/-! ## C4 — DNS record-type ordering -/

/-- C4 counterexample: The claim says a bulk DNS query resolves
types in the fixed order `A, AAAA, …` regardless of the caller's
order, so `"MX,A"` should return the A entries first.  Against `envC4`
(one A answer, one MX answer) the call with `"MX,A"` returns the MX
record *before* the A record. -/
theorem c4_type_order_counterexample :
    _do_dns_query envC4 "example.com".data (some "MX,A".data) =
      .ok "example.com".data
        [⟨"MX".data, "example.com".data, "10 mail.example.com".data, 600⟩,
         ⟨"A".data, "example.com".data, "93.184.216.34".data, 300⟩] := by
  decide

/-- C4 amended: Record types are resolved and their answers
appended in the order the caller listed them (after comma-splitting,
stripping and uppercasing); the fixed order `A, AAAA, CNAME, MX, NS,
TXT, SOA, PTR, SRV, CAA` applies only when the caller specifies no
types.  Requesting `"MX,A"` returns the MX entries before the A
entries. -/
theorem dns_types_resolve_in_caller_order (env : DnsEnv)
    (domain : List Char) (rts : Option (List Char)) (d : List Char)
    (types : List (List Char)) (recs : List DNSRecord)
    (hv : validate_domain domain = some d)
    (ht : resolveTypes rts = .ok types)
    (hq : _do_dns_query env domain rts = .ok d recs) :
    recs = (types.map (recordsForType env d)).flatten := by
  simp only [_do_dns_query, hv, ht] at hq
  cases hl : dnsLoop env d types with
  | none => rw [hl] at hq; cases hq
  | some recs' =>
    rw [hl] at hq
    have : recs' = recs := by injection hq with _ h
    rw [← this]
    exact dnsLoop_eq_join env d types recs' hl

/-- Witness for the amended C4: the `"MX,A"` call against `envC4`
returns exactly the MX-then-A concatenation. -/
theorem dns_types_resolve_in_caller_order_witness :
    [(⟨"MX".data, "example.com".data, "10 mail.example.com".data, 600⟩ :
        DNSRecord),
     ⟨"A".data, "example.com".data, "93.184.216.34".data, 300⟩] =
      ((["MX".data, "A".data]).map
        (recordsForType envC4 "example.com".data)).flatten :=
  dns_types_resolve_in_caller_order envC4 "example.com".data
    (some "MX,A".data) "example.com".data ["MX".data, "A".data] _
    (by decide) rfl (by decide)

/-! ## C5 — NXDOMAIN is fatal, other per-type failures are skipped -/

/-- C5: For a validated domain and supported type list, the DNS
call fails with DomainNotFound iff some queried type resolved to
NXDOMAIN (even when earlier types produced answers — they are
discarded); and when no type resolves to NXDOMAIN the call returns a
record list, every non-NXDOMAIN per-type failure (`NoAnswer`,
`NoNameservers`, any other error) having been silently skipped. -/
theorem dns_nxdomain_fatal_others_skipped (env : DnsEnv)
    (domain : List Char) (rts : Option (List Char)) (d : List Char)
    (types : List (List Char))
    (hv : validate_domain domain = some d)
    (ht : resolveTypes rts = .ok types) :
    (_do_dns_query env domain rts = .domainNotFound d ↔
      ∃ t ∈ types, env.resolve d t = .nxdomain) ∧
    ((¬ ∃ t ∈ types, env.resolve d t = .nxdomain) →
      ∃ recs, _do_dns_query env domain rts = .ok d recs) := by
  constructor
  · cases hl : dnsLoop env d types with
    | none =>
      have hex := (dnsLoop_none_iff env d types).mp hl
      simp [_do_dns_query, hv, ht, hl, hex]
    | some recs =>
      have hnex : ¬ (∃ t ∈ types, env.resolve d t = .nxdomain) := by
        intro hex
        rw [← dnsLoop_none_iff env d types] at hex
        rw [hl] at hex
        cases hex
      simp [_do_dns_query, hv, ht, hl, hnex]
  · intro hnex
    cases hl : dnsLoop env d types with
    | none => exact absurd ((dnsLoop_none_iff env d types).mp hl) hnex
    | some recs => exact ⟨recs, by simp [_do_dns_query, hv, ht, hl]⟩

/-- Witness for C5: against `envC5` (an A answer but NXDOMAIN on MX)
the default bulk query fails with DomainNotFound even though the A
type, queried first, had an answer. -/
theorem dns_nxdomain_fatal_others_skipped_witness :
    envC5.resolve "example.com".data "A".data =
      .answers 300 [mkRdata "93.184.216.34".data] ∧
    _do_dns_query envC5 "example.com".data none =
      .domainNotFound "example.com".data :=
  ⟨by decide,
    ((dns_nxdomain_fatal_others_skipped envC5 "example.com".data none
        "example.com".data (DNS_RECORD_TYPES.map String.data)
        (by decide) rfl).1).mpr
      ⟨"MX".data, by decide, by decide⟩⟩

end WhoisApi

namespace WhoisApi

/-! ## C6 — aggregator: WHOIS failure downgraded, DNS failure fatal -/

/-- C6: For a validated domain: when the WHOIS orchestrator fails
(all four tiers exhausted) but the DNS query succeeds, `full_lookup`
still succeeds, with the `whois` field downgraded to the
`\x7bdomain, error\x7d` payload and the `dns` field populated with the
resolved records; when the DNS query fails with DomainNotFound, the
whole aggregate call fails with DomainNotFound. -/
theorem full_lookup_whois_downgrade_dns_fatal (wenv : WhoisEnv)
    (denv : DnsEnv) (domain d : List Char)
    (hv : validate_domain domain = some d) :
    (∀ msg recs, _do_whois_query wenv d = .failure msg →
      _do_dns_query denv d none = .ok d recs →
      full_lookup wenv denv domain = .success (.errorPayload d msg) recs) ∧
    (_do_dns_query denv d none = .domainNotFound d →
      full_lookup wenv denv domain = .domainNotFound d) := by
  constructor
  · intro msg recs hw hd
    simp [full_lookup, hv, hw, hd]
  · intro hd
    simp [full_lookup, hv, hd]

/-- Witness for C6: with every WHOIS tier failing (`envW6`) and a
resolver with one A answer (`envD6`), the aggregate call succeeds with
the error payload and the A record. -/
theorem full_lookup_whois_downgrade_dns_fatal_witness :
    full_lookup envW6 envD6 "example.com".data =
      .success
        (.errorPayload "example.com".data (whoisFailMsg "example.com".data))
        [⟨"A".data, "example.com".data, "93.184.216.34".data, 300⟩] :=
  (full_lookup_whois_downgrade_dns_fatal envW6 envD6 "example.com".data
      "example.com".data (by decide)).1
    (whoisFailMsg "example.com".data)
    [⟨"A".data, "example.com".data, "93.184.216.34".data, 300⟩]
    rfl (by decide)

end WhoisApi

namespace WhoisApi

/-! ## C7 — RDAP event dates -/

theorem getLast?_cons_or (a : Json) (l : List Json) :
    (a :: l).getLast? = (l.getLast?).or (some a) := by
  cases l with
  | nil => simp
  | cons b m =>
    rw [List.getLast?_cons_cons]
    cases hbm : (b :: m).getLast? with
    | none => simp [List.getLast?_eq_none_iff] at hbm
    | some x => simp

/-- A JSON value equal (in the Python sense) to two string literals
forces the literals to agree. -/
theorem Json.isStr_unique {j : Json} {s t : List Char}
    (hs : j.isStr s = true) (ht : j.isStr t = true) : s = t := by
  cases j with
  | str u =>
    simp only [Json.isStr, beq_iff_eq] at hs ht
    rw [← hs, ← ht]
  | null => simp [Json.isStr] at hs
  | bool b => simp [Json.isStr] at hs
  | num n => simp [Json.isStr] at hs
  | arr xs => simp [Json.isStr] at hs
  | obj fs => simp [Json.isStr] at hs

theorem rdapEventStep_creation_of_not_reg (st : RdapDates) (ev : Json)
    (h : (ev.getD "eventAction".data Json.null).isStr "registration".data
      = false) :
    (rdapEventStep st ev).creation = st.creation := by
  simp only [rdapEventStep, h, Bool.false_eq_true, if_false]
  split
  · rfl
  · split
    · split <;> rfl
    · rfl

theorem rdapEventStep_creation_of_reg (st : RdapDates) (ev : Json)
    (h : (ev.getD "eventAction".data Json.null).isStr "registration".data
      = true) :
    (rdapEventStep st ev).creation
      = some (ev.getD "eventDate".data (Json.str [])) := by
  simp [rdapEventStep, h]

theorem rdapEventStep_expiration_of_not_exp (st : RdapDates) (ev : Json)
    (h : (ev.getD "eventAction".data Json.null).isStr "expiration".data
      = false) :
    (rdapEventStep st ev).expiration = st.expiration := by
  simp only [rdapEventStep]
  split
  · rfl
  · simp only [h, Bool.false_eq_true, if_false]
    split
    · split <;> rfl
    · rfl

theorem rdapEventStep_expiration_of_exp (st : RdapDates) (ev : Json)
    (h : (ev.getD "eventAction".data Json.null).isStr "expiration".data
      = true) :
    (rdapEventStep st ev).expiration
      = some (ev.getD "eventDate".data (Json.str [])) := by
  have hreg : (ev.getD "eventAction".data Json.null).isStr
      "registration".data = false := by
    by_contra hr
    rw [Bool.not_eq_false] at hr
    have := Json.isStr_unique hr h
    simp at this
  simp [rdapEventStep, h, hreg]

theorem rdapEventStep_updated_of_not_upd (st : RdapDates) (ev : Json)
    (h : ((ev.getD "eventAction".data Json.null).isStr "last changed".data ||
      (ev.getD "eventAction".data Json.null).isStr
        "last update of RDAP database".data) = false) :
    (rdapEventStep st ev).updated = st.updated := by
  simp only [rdapEventStep]
  split
  · rfl
  · split
    · rfl
    · simp only [h, Bool.false_eq_true, if_false]

theorem rdapEventStep_updated_of_upd (st : RdapDates) (ev : Json)
    (h : ((ev.getD "eventAction".data Json.null).isStr "last changed".data ||
      (ev.getD "eventAction".data Json.null).isStr
        "last update of RDAP database".data) = true) :
    (rdapEventStep st ev).updated =
      if pyFalsyOpt st.updated = true then
        some (ev.getD "eventDate".data (Json.str []))
      else st.updated := by
  have hnr : (ev.getD "eventAction".data Json.null).isStr
      "registration".data = false := by
    by_contra hr
    rw [Bool.not_eq_false] at hr
    rcases Bool.or_eq_true_iff.mp h with h1 | h1 <;>
      · have := Json.isStr_unique hr h1
        simp at this
  have hne : (ev.getD "eventAction".data Json.null).isStr
      "expiration".data = false := by
    by_contra hr
    rw [Bool.not_eq_false] at hr
    rcases Bool.or_eq_true_iff.mp h with h1 | h1 <;>
      · have := Json.isStr_unique hr h1
        simp at this
  simp only [rdapEventStep, hnr, hne, h, Bool.false_eq_true, if_false,
    if_true]
  split <;> simp_all

theorem foldl_events_creation (evs : List Json) :
    ∀ st : RdapDates,
      (evs.foldl rdapEventStep st).creation =
        ((eventDatesFor "registration" evs).getLast?).or st.creation := by
  induction evs with
  | nil => intro st; simp [eventDatesFor]
  | cons ev rest ih =>
    intro st
    rw [List.foldl_cons]
    by_cases hreg : (ev.getD "eventAction".data Json.null).isStr
        "registration".data = true
    · rw [ih]
      have hds : eventDatesFor "registration" (ev :: rest) =
          (ev.getD "eventDate".data (Json.str [])) ::
            eventDatesFor "registration" rest := by
        simp [eventDatesFor, hreg]
      rw [hds, getLast?_cons_or, Option.or_assoc, Option.or_some,
        rdapEventStep_creation_of_reg st ev hreg]
    · rw [Bool.not_eq_true] at hreg
      rw [ih]
      have hds : eventDatesFor "registration" (ev :: rest) =
          eventDatesFor "registration" rest := by
        simp [eventDatesFor, hreg]
      rw [hds, rdapEventStep_creation_of_not_reg st ev hreg]

theorem foldl_events_expiration (evs : List Json) :
    ∀ st : RdapDates,
      (evs.foldl rdapEventStep st).expiration =
        ((eventDatesFor "expiration" evs).getLast?).or st.expiration := by
  induction evs with
  | nil => intro st; simp [eventDatesFor]
  | cons ev rest ih =>
    intro st
    rw [List.foldl_cons]
    by_cases hexp : (ev.getD "eventAction".data Json.null).isStr
        "expiration".data = true
    · rw [ih]
      have hds : eventDatesFor "expiration" (ev :: rest) =
          (ev.getD "eventDate".data (Json.str [])) ::
            eventDatesFor "expiration" rest := by
        simp [eventDatesFor, hexp]
      rw [hds, getLast?_cons_or, Option.or_assoc, Option.or_some,
        rdapEventStep_expiration_of_exp st ev hexp]
    · rw [Bool.not_eq_true] at hexp
      rw [ih]
      have hds : eventDatesFor "expiration" (ev :: rest) =
          eventDatesFor "expiration" rest := by
        simp [eventDatesFor, hexp]
      rw [hds, rdapEventStep_expiration_of_not_exp st ev hexp]

theorem foldl_events_updated (evs : List Json) :
    ∀ st : RdapDates,
      (evs.foldl rdapEventStep st).updated =
        if pyFalsyOpt st.updated = true then
          ((updatedDatesFor evs).find? Json.pyTruthy).or
            (((updatedDatesFor evs).getLast?).or st.updated)
        else st.updated := by
  induction evs with
  | nil =>
    intro st
    by_cases h : pyFalsyOpt st.updated = true <;>
      simp [updatedDatesFor, h]
  | cons ev rest ih =>
    intro st
    rw [List.foldl_cons]
    by_cases hupd : ((ev.getD "eventAction".data Json.null).isStr
        "last changed".data ||
      (ev.getD "eventAction".data Json.null).isStr
        "last update of RDAP database".data) = true
    · have hds : updatedDatesFor (ev :: rest) =
          (ev.getD "eventDate".data (Json.str [])) ::
            updatedDatesFor rest := by
        simp only [updatedDatesFor, List.filterMap_cons]
        rw [if_pos hupd]
      rw [ih, hds]
      have hstep := rdapEventStep_updated_of_upd st ev hupd
      by_cases hfal : pyFalsyOpt st.updated = true
      · rw [if_pos hfal] at hstep
        rw [hstep, if_pos hfal]
        by_cases htru :
            (ev.getD "eventDate".data (Json.str [])).pyTruthy = true
        · have : pyFalsyOpt
              (some (ev.getD "eventDate".data (Json.str []))) = false := by
            simp [pyFalsyOpt, htru]
          rw [if_neg (by simp [this])]
          rw [List.find?_cons_of_pos _ htru, Option.or_some]
        · rw [Bool.not_eq_true] at htru
          have : pyFalsyOpt
              (some (ev.getD "eventDate".data (Json.str []))) = true := by
            simp [pyFalsyOpt, htru]
          rw [if_pos this]
          rw [List.find?_cons_of_neg _ (by simp [htru]), getLast?_cons_or]
          rw [Option.or_assoc, Option.or_some]
      · rw [if_neg hfal] at hstep
        rw [hstep, if_neg hfal, if_neg hfal]
    · rw [Bool.not_eq_true] at hupd
      have hds : updatedDatesFor (ev :: rest) = updatedDatesFor rest := by
        simp only [updatedDatesFor, List.filterMap_cons]
        rw [if_neg (by simp [hupd])]
      rw [ih, hds, rdapEventStep_updated_of_not_upd st ev hupd]

theorem firstTruthyOrLast_eq_or (ds : List Json) :
    firstTruthyOrLast ds = (ds.find? Json.pyTruthy).or ds.getLast? := by
  unfold firstTruthyOrLast
  cases ds.find? Json.pyTruthy <;> simp

end WhoisApi

namespace WhoisApi

/-- C7 counterexample: The claim says each date field is filled
from the *first* matching event and a later matching event never
overwrites it.  On the two-registration-event array `eventsC7` the
parser returns the *second* event's date for `creation_date`: the
assignment `result['creation_date'] = date` has no first-match guard,
so the later event overwrites the earlier one. -/
theorem c7_first_match_counterexample :
    (_parse_rdap_response (Json.obj [("events".data, Json.arr eventsC7)])
        "example.com".data).creation_date =
      some (Json.str "2024-06-30T00:00:00Z".data) ∧
    ("2024-06-30T00:00:00Z".data : List Char) ≠ "2000-01-01T00:00:00Z".data :=
  ⟨rfl, by decide⟩

/-- C7 amended: Over any events array, `creation_date` and
`expiration_date` are filled from the *last* event whose `eventAction`
is `registration` / `expiration` respectively (each matching event
overwrites the field), while `updated_date` — the only guarded field —
ends at the first matching event whose date is truthy, or at the last
matching event when every matching date is falsy. -/
theorem rdap_event_dates_characterization (evs : List Json)
    (dom : List Char) :
    (_parse_rdap_response (Json.obj [("events".data, Json.arr evs)])
        dom).creation_date =
      (eventDatesFor "registration" evs).getLast? ∧
    (_parse_rdap_response (Json.obj [("events".data, Json.arr evs)])
        dom).expiration_date =
      (eventDatesFor "expiration" evs).getLast? ∧
    (_parse_rdap_response (Json.obj [("events".data, Json.arr evs)])
        dom).updated_date =
      firstTruthyOrLast (updatedDatesFor evs) := by
  refine ⟨?_, ?_, ?_⟩
  · show (parseRdapDates evs).creation = _
    rw [parseRdapDates, foldl_events_creation evs ⟨none, none, none⟩,
      Option.or_none]
  · show (parseRdapDates evs).expiration = _
    rw [parseRdapDates, foldl_events_expiration evs ⟨none, none, none⟩,
      Option.or_none]
  · show (parseRdapDates evs).updated = _
    rw [parseRdapDates, foldl_events_updated evs ⟨none, none, none⟩,
      firstTruthyOrLast_eq_or]
    simp [pyFalsyOpt]

end WhoisApi

namespace WhoisApi

/-! ## C8 — scheme stripping is case-sensitive -/

/-- C8 counterexample: The claim says the scheme prefix is
stripped case-insensitively, so `HTTPS://EXAMPLE.COM/path` should
normalize like its lowercase-scheme spelling (to `example.com`).  The
`re.sub` in `validate_domain` has no `re.IGNORECASE` flag: the
uppercase spelling is rejected while the lowercase-scheme spelling is
accepted. -/
theorem c8_uppercase_scheme_counterexample :
    validate_domain "HTTPS://EXAMPLE.COM/path".data = none ∧
    validate_domain "https://EXAMPLE.COM/path".data =
      some "example.com".data :=
  ⟨by decide, by decide⟩

/-- C8 amended: The normalizer strips a leading `http://` or
`https://` only when the scheme is spelled in lowercase; an input
whose scheme contains an uppercase letter (e.g. starting `HTTPS://`)
is not stripped, and — after truncation at `'/'` and `':'` — is
rejected with InvalidDomain whatever follows the scheme. -/
theorem scheme_strip_case_sensitive :
    (∀ t : List Char, stripScheme ("https://".data ++ t) = t) ∧
    (∀ t : List Char, stripScheme ("http://".data ++ t) = t) ∧
    (∀ t : List Char, validate_domain ("HTTPS://".data ++ t) = none) := by
  refine ⟨?_, ?_, ?_⟩
  · intro t
    have h1 : ("https://".data ++ t).take 8 = "https://".data :=
      List.take_left' (by decide)
    have h2 : ("https://".data ++ t).drop 8 = t :=
      List.drop_left' (by decide)
    simp [stripScheme, h1, h2]
  · intro t
    have hne : ¬ ("http://".data ++ t).take 8 = "https://".data := by
      cases t with
      | nil => decide
      | cons a t' =>
        intro h
        simp [List.take_append_eq_append_take] at h
    have h1 : ("http://".data ++ t).take 7 = "http://".data :=
      List.take_left' (by decide)
    have h2 : ("http://".data ++ t).drop 7 = t :=
      List.drop_left' (by decide)
    simp [stripScheme, hne, h1, h2]
  · intro t
    have hne8 : ¬ ("HTTPS://".data ++ t).take 8 = "https://".data := by
      rw [List.take_left' (by decide)]
      decide
    have hne7 : ¬ ("HTTPS://".data ++ t).take 7 = "http://".data := by
      rw [List.take_append_of_le_length (by decide)]
      decide
    have hstrip : stripScheme ("HTTPS://".data ++ t) =
        "HTTPS://".data ++ t := by
      simp [stripScheme, hne8, hne7]
    have hcut : takeUntil '/' ("HTTPS://".data ++ t) = "HTTPS:".data := by
      have heq : ("HTTPS://".data ++ t) =
          "HTTPS:".data ++ ('/' :: ('/' :: t)) := rfl
      rw [takeUntil, heq, List.takeWhile_append_of_pos (by decide)]
      simp
    rw [validate_domain, hstrip, hcut]
    decide

end WhoisApi

namespace WhoisApi

/-! ## C9 — normalizer idempotence: helper lemmas -/

theorem splitOnChar_ne_nil (sep : Char) :
    ∀ cs : List Char, splitOnChar sep cs ≠ [] := by
  intro cs
  induction cs with
  | nil => simp [splitOnChar]
  | cons c rest ih =>
    rw [splitOnChar]
    split
    · simp
    · split
      · simp
      · simp

theorem mem_splitOnChar (sep : Char) (cs : List Char) (c : Char)
    (hc : c ∈ cs) :
    c = sep ∨ ∃ p ∈ splitOnChar sep cs, c ∈ p := by
  induction cs with
  | nil => cases hc
  | cons a rest ih =>
    rcases List.mem_cons.mp hc with rfl | hmem
    · by_cases ha : c = sep
      · exact Or.inl ha
      · right
        rw [splitOnChar, if_neg ha]
        cases hs : splitOnChar sep rest with
        | nil => exact absurd hs (splitOnChar_ne_nil sep rest)
        | cons p ps =>
          exact ⟨c :: p, List.mem_cons_self _ _, List.mem_cons_self _ _⟩
    · rcases ih hmem with h | ⟨p, hp, hcp⟩
      · exact Or.inl h
      · right
        rw [splitOnChar]
        by_cases ha : a = sep
        · rw [if_pos ha]
          exact ⟨p, List.mem_cons_of_mem _ hp, hcp⟩
        · rw [if_neg ha]
          cases hs : splitOnChar sep rest with
          | nil => exact absurd hs (splitOnChar_ne_nil sep rest)
          | cons q qs =>
            rw [hs] at hp
            rcases List.mem_cons.mp hp with rfl | hq
            · exact ⟨a :: p, List.mem_cons_self _ _,
                List.mem_cons_of_mem _ hcp⟩
            · exact ⟨p, List.mem_cons_of_mem _ hq, hcp⟩

theorem validLabel_all_labelChar {p : List Char} (h : validLabel p = true) :
    p.all isLabelChar = true := by
  cases p with
  | nil => simp [validLabel] at h
  | cons x xs =>
    obtain ⟨t0, hgt⟩ : ∃ t0, (x :: xs).getLast? = some t0 := by
      cases hxx : (x :: xs).getLast? with
      | none => simp [List.getLast?_eq_none_iff] at hxx
      | some y => exact ⟨y, rfl⟩
    rw [validLabel, List.head?_cons, hgt] at h
    simp only [Bool.and_eq_true] at h
    exact h.1.1

theorem matchesCore_chars (cs : List Char) (h : matchesCore cs = true) :
    ∀ c ∈ cs, isDomainChar c = true := by
  intro c hc
  rcases mem_splitOnChar '.' cs c hc with rfl | ⟨p, hp, hcp⟩
  · decide
  · rw [matchesCore] at h
    simp only [Bool.and_eq_true] at h
    obtain ⟨⟨hlen, hall⟩, hlast⟩ := h
    cases hgl : (splitOnChar '.' cs).getLast? with
    | none => rw [hgl] at hlast; cases hlast
    | some lb =>
      rw [hgl] at hlast
      have hdl := List.dropLast_append_getLast? lb (Option.mem_def.mpr hgl)
      rw [← hdl] at hp
      rcases List.mem_append.mp hp with hpd | hpl
      · have hv : validLabel p = true :=
          List.all_eq_true.mp hall p hpd
        have := List.all_eq_true.mp (validLabel_all_labelChar hv) c hcp
        simp [isDomainChar, this]
      · have hpe : p = lb := by simpa using hpl
        subst hpe
        simp only [validFinalLabel, Bool.and_eq_true] at hlast
        have := List.all_eq_true.mp hlast.2 c hcp
        simp [isDomainChar, isLabelChar, isAlnumChar, this]

theorem isDomainChar_ranges {c : Char} (h : isDomainChar c = true) :
    (97 ≤ c.toNat ∧ c.toNat ≤ 122) ∨ (48 ≤ c.toNat ∧ c.toNat ≤ 57) ∨
      c.toNat = 45 ∨ c.toNat = 46 := by
  simp only [isDomainChar, isLabelChar, isAlnumChar, isLowerAlpha,
    isDigitChar, Bool.or_eq_true, Bool.and_eq_true, decide_eq_true_eq] at h
  tauto

theorem pyLower_eq_self_of_domainChar {c : Char}
    (h : isDomainChar c = true) : pyLower c = c := by
  rcases isDomainChar_ranges h with h' | h' | h' | h' <;>
    · rw [pyLower, if_neg (by omega)]

theorem isPySpace_false_of_domainChar {c : Char}
    (h : isDomainChar c = true) : isPySpace c = false := by
  have hr := isDomainChar_ranges h
  simp only [isPySpace, Bool.or_eq_false_iff, decide_eq_false_iff_not]
  omega

theorem ne_slash_of_domainChar {c : Char} (h : isDomainChar c = true) :
    (c != '/') = true := by
  rw [bne_iff_ne]
  rintro rfl
  exact absurd h (by decide)

theorem ne_colon_of_domainChar {c : Char} (h : isDomainChar c = true) :
    (c != ':') = true := by
  rw [bne_iff_ne]
  rintro rfl
  exact absurd h (by decide)

theorem map_eq_self_of_id {f : Char → Char} :
    ∀ {l : List Char}, (∀ c ∈ l, f c = c) → l.map f = l := by
  intro l
  induction l with
  | nil => intro _; rfl
  | cons a t ih =>
    intro h
    rw [List.map_cons, h a (List.mem_cons_self a t),
      ih (fun c hc => h c (List.mem_cons_of_mem a hc))]

theorem dropWhile_eq_self_of_neg {p : Char → Bool} {l : List Char}
    (h : ∀ c ∈ l, p c = false) : l.dropWhile p = l := by
  cases l with
  | nil => rfl
  | cons a t =>
    exact List.dropWhile_cons_of_neg
      (by simp [h a (List.mem_cons_self a t)])

theorem pyStrip_eq_self {l : List Char}
    (h : ∀ c ∈ l, isPySpace c = false) : pyStrip l = l := by
  unfold pyStrip
  rw [dropWhile_eq_self_of_neg h,
    dropWhile_eq_self_of_neg (fun c hc => h c (List.mem_reverse.mp hc)),
    List.reverse_reverse]

theorem stripScheme_eq_self {l : List Char}
    (h : ∀ c ∈ l, isDomainChar c = true) : stripScheme l = l := by
  have h8 : ¬ l.take 8 = "https://".data := by
    intro he
    have hm : ':' ∈ l := List.take_subset 8 l (by rw [he]; decide)
    exact absurd (h ':' hm) (by decide)
  have h7 : ¬ l.take 7 = "http://".data := by
    intro he
    have hm : ':' ∈ l := List.take_subset 7 l (by rw [he]; decide)
    exact absurd (h ':' hm) (by decide)
  simp [stripScheme, h8, h7]

theorem pyStrip_getLast_not_space {l : List Char} {c : Char}
    (h : (pyStrip l).getLast? = some c) : isPySpace c = false := by
  unfold pyStrip at h
  rw [List.getLast?_reverse] at h
  have hd := List.head?_dropWhile_not isPySpace
    ((l.dropWhile isPySpace).reverse)
  rw [h] at hd
  exact hd

end WhoisApi

namespace WhoisApi

/-- C9: The domain normalizer is idempotent — every accepted
output passes unchanged through a second normalization — and it
rejects `""`, `"not a domain"` and `"-bad.com"` with InvalidDomain. -/
theorem validate_domain_idempotent_and_rejections :
    (∀ x d : List Char, validate_domain x = some d →
      validate_domain d = some d) ∧
    validate_domain "".data = none ∧
    validate_domain "not a domain".data = none ∧
    validate_domain "-bad.com".data = none := by
  refine ⟨?_, by decide, by decide, by decide⟩
  intro x d h
  rw [validate_domain] at h
  set d0 := pyStrip ((takeUntil ':' (takeUntil '/' (stripScheme x))).map
    pyLower) with hd0
  by_cases he : d0.isEmpty = true
  · rw [if_pos he] at h; cases h
  · rw [if_neg he] at h
    by_cases hm : matchesDomainRegex d0 = true
    · rw [if_pos hm] at h
      obtain rfl : d0 = d := Option.some.inj h
      have hcore : matchesCore d0 = true := by
        rw [matchesDomainRegex] at hm
        rcases Bool.or_eq_true_iff.mp hm with hc | hq
        · exact hc
        · cases hgl : d0.getLast? with
          | none => rw [hgl] at hq; cases hq
          | some c =>
            rw [hgl] at hq
            simp only [Bool.and_eq_true, beq_iff_eq] at hq
            obtain ⟨rfl, _⟩ := hq
            have hsp := pyStrip_getLast_not_space (hd0 ▸ hgl)
            exact absurd hsp (by decide)
      have hchars := matchesCore_chars d0 hcore
      have h1 : stripScheme d0 = d0 := stripScheme_eq_self hchars
      have h2 : takeUntil '/' d0 = d0 := by
        rw [takeUntil]
        exact List.takeWhile_eq_self_iff.mpr
          (fun c hc => by simpa using ne_slash_of_domainChar (hchars c hc))
      have h3 : takeUntil ':' d0 = d0 := by
        rw [takeUntil]
        exact List.takeWhile_eq_self_iff.mpr
          (fun c hc => by simpa using ne_colon_of_domainChar (hchars c hc))
      have h4 : d0.map pyLower = d0 :=
        map_eq_self_of_id
          (fun c hc => pyLower_eq_self_of_domainChar (hchars c hc))
      have h5 : pyStrip d0 = d0 :=
        pyStrip_eq_self
          (fun c hc => isPySpace_false_of_domainChar (hchars c hc))
      rw [Bool.not_eq_true] at he
      rw [validate_domain, h1, h2, h3, h4, h5, if_neg (by rw [he]; simp),
        if_pos hm]
    · rw [if_neg hm] at h; cases h

/-- Witness for C9: a concrete accepted normalization re-normalizes to
itself. -/
theorem validate_domain_idempotent_witness :
    validate_domain "http://Foo.COM/bar".data = some "foo.com".data ∧
    validate_domain "foo.com".data = some "foo.com".data :=
  ⟨by decide,
    validate_domain_idempotent_and_rejections.1
      "http://Foo.COM/bar".data "foo.com".data (by decide)⟩

end WhoisApi
